import Mathlib

/-!
Formal model of `generate_remaining_issues.py`.

The script holds two hardcoded catalogs (`MEDIUM_ISSUES`, `LOW_ISSUES`),
renders each record through one f-string template and writes the result to
`.github/issues/<id>.md` (`create_issue_file`), then `main` iterates both
catalogs and prints a report.  Python dicts become association lists in
insertion order, a dict subscript becomes a fallible lookup raising
`KeyError`, the filesystem becomes a path-to-content association list where
`open(path, "w")` truncates, and an uncaught exception stops the run while
leaving the files written so far in place.
-/

/-- A Python `dict` with string keys and values, as an association list in
insertion order; the subscript `d[k]` is modelled by `getKey` below. -/
abbrev PyDict := List (String × String)

/-- The field dict of one catalog entry. -/
abbrev IssueData := PyDict

/-- Errors a run can raise.  The source raises Python `KeyError` on a failed
dict subscript; `configurationError` is the error kind the design spec asks
for (no code in the source ever raises it). -/
inductive PyError
  | keyError (key : String)
  | configurationError (msg : String)
deriving DecidableEq

instance {α β : Type} [DecidableEq α] [DecidableEq β] :
    DecidableEq (Except α β) := fun
  | Except.ok a, Except.ok b =>
      if h : a = b then Decidable.isTrue (by rw [h])
      else Decidable.isFalse (fun hh => h (Except.ok.inj hh))
  | Except.ok _, Except.error _ =>
      Decidable.isFalse (fun hh => Except.noConfusion hh)
  | Except.error _, Except.ok _ =>
      Decidable.isFalse (fun hh => Except.noConfusion hh)
  | Except.error a, Except.error b =>
      if h : a = b then Decidable.isTrue (by rw [h])
      else Decidable.isFalse (fun hh => h (Except.error.inj hh))

/-- Python dict subscript `d[k]`: the value at `k`, or `KeyError k`. -/
def getKey (d : PyDict) (k : String) : Except PyError String :=
  match d.lookup k with
  | some v => Except.ok v
  | none => Except.error (PyError.keyError k)

/-- The `priority_emoji` dict local to `create_issue_file`. -/
def priority_emoji : PyDict := [("MED", "🟡"), ("LOW", "🟢")]

/-- The `priority_name` dict local to `create_issue_file`. -/
def priority_name : PyDict := [("MED", "Medium"), ("LOW", "Low")]

/-- The f-string of `create_issue_file` building `content`: the seven dict
subscripts evaluate left to right and the literal template text is
interleaved verbatim. -/
def renderContent (issue_data : IssueData) (priority : String) :
    Except PyError String := do
  let title ← getKey issue_data "title"
  let emoji ← getKey priority_emoji priority
  let pname ← getKey priority_name priority
  let summary ← getKey issue_data "summary"
  let implementation ← getKey issue_data "implementation"
  let criteria ← getKey issue_data "criteria"
  let effort ← getKey issue_data "effort"
  Except.ok ("# " ++ title ++ "\n\n## " ++ emoji ++ " " ++ pname ++
    " Priority\n\n### Summary\n" ++ summary ++
    "\n\n### Implementation\n" ++ implementation ++
    "\n\n### Acceptance Criteria\n" ++ criteria ++
    "\n\n### Estimated Effort\n" ++ effort ++ "\n")

/-- The filesystem fragment the program touches: path to current content, in
creation order. -/
abbrev FS := List (String × String)

/-- `open(path, "w")` followed by `f.write(content)`: truncates any existing
file at `path` (overwrite, never append), creates the file otherwise. -/
def fsWrite (fs : FS) (path content : String) : FS :=
  if fs.any (fun e => e.1 == path) then
    fs.map (fun e => if e.1 == path then (path, content) else e)
  else fs ++ [(path, content)]

/-- `create_issue_file`: build `content` from the template (any failed
subscript raises here, before the `open`, leaving the filesystem untouched),
then write it to `.github/issues/<issue_id>.md` and return that filename. -/
def create_issue_file (fs : FS) (issue_id : String) (issue_data : IssueData)
    (priority : String) : Except PyError (FS × String) := do
  let content ← renderContent issue_data priority
  let filename := ".github/issues/" ++ issue_id ++ ".md"
  Except.ok (fsWrite fs filename content, filename)

/-- One unit of `main`'s work: `(issue_id, issue_data, priority)`. -/
abbrev WorkItem := String × IssueData × String

/-- The target path of a work item. -/
def pathOf (issue_id : String) : String := ".github/issues/" ++ issue_id ++ ".md"

/-- The loop of `main` over a list of work items: on success thread the
filesystem and append the returned filename to `created`; an uncaught
`PyError` stops the run, and the filesystem keeps every file written by the
iterations before the failing one. -/
def writeIssues (fs : FS) (created : List String) :
    List WorkItem → FS × List String × Option PyError
  | [] => (fs, created, none)
  | (issue_id, data, priority) :: rest =>
    match create_issue_file fs issue_id data priority with
    | Except.ok (fs', filename) => writeIssues fs' (created ++ [filename]) rest
    | Except.error e => (fs, created, some e)
/-- The `MEDIUM_ISSUES` catalog of the source file, verbatim: an ordered
Python dict of id to field dict, embedded as an association list. -/
def MEDIUM_ISSUES : List (String × IssueData) := [
  ("MED-001",
   [("title", "Extract Common Form Submission Hook"),
    ("summary", "Duplicate form submission logic with loading/error states across 15+ components."),
    ("implementation", "Create reusable hook:\n\x60\x60\x60typescript\n// hooks/use-form-submit.ts\nexport function useFormSubmit<T>() \x7b\n  const [isLoading, setIsLoading] = useState(false);\n  const [error, setError] = useState<string | null>(null);\n\n  const submit = useCallback(async (\n    fn: () => Promise<T>,\n    options?: \x7b successMessage?: string \x7d\n  ) => \x7b\n    try \x7b\n      setIsLoading(true);\n      setError(null);\n      const result = await fn();\n      if (options?.successMessage) \x7b\n        toast.success(options.successMessage);\n      \x7d\n      return result;\n    \x7d catch (err) \x7b\n      const message = err instanceof Error ? err.message : \x27Failed\x27;\n      setError(message);\n      toast.error(message);\n      throw err;\n    \x7d finally \x7b\n      setIsLoading(false);\n    \x7d\n  \x7d, []);\n\n  return \x7b submit, isLoading, error \x7d;\n\x7d\n\x60\x60\x60"),
    ("criteria", "- [ ] Create useFormSubmit hook\n- [ ] Handle loading state\n- [ ] Handle error state\n- [ ] Toast notifications\n- [ ] Replace duplicate logic"),
    ("effort", "3-4 hours")]),
  ("MED-002",
   [("title", "Create Reusable LoadingSpinner Component"),
    ("summary", "Loading spinner markup duplicated in 10+ files."),
    ("implementation", "\x60\x60\x60typescript\n// components/ui/loading-spinner.tsx\ninterface LoadingSpinnerProps \x7b\n  size?: \x27sm\x27 | \x27md\x27 | \x27lg\x27;\n  text?: string;\n\x7d\n\nexport function LoadingSpinner(\x7b size = \x27md\x27, text \x7d: LoadingSpinnerProps) \x7b\n  const sizeClasses = \x7b\n    sm: \x27h-4 w-4\x27,\n    md: \x27h-8 w-8\x27,\n    lg: \x27h-12 w-12\x27\n  \x7d;\n\n  return (\n    <div className=\"flex flex-col items-center justify-center gap-2\">\n      <div className=\x7b\x60animate-spin rounded-full border-b-2 border-primary $\x7bsizeClasses[size]\x7d\x60\x7d />\n      \x7btext && <p className=\"text-sm text-muted-foreground\">\x7btext\x7d</p>\x7d\n    </div>\n  );\n\x7d\n\x60\x60\x60"),
    ("criteria", "- [ ] Create LoadingSpinner component\n- [ ] Support size variants\n- [ ] Optional loading text\n- [ ] Replace all duplicate markup"),
    ("effort", "1-2 hours")]),
  ("MED-003",
   [("title", "Create Reusable RoleBadge Component"),
    ("summary", "Role badge logic duplicated across components."),
    ("implementation", "\x60\x60\x60typescript\n// components/organizations/role-badge.tsx\nexport function RoleBadge(\x7b role \x7d: \x7b role: string \x7d) \x7b\n  const variants = \x7b\n    owner: \x7b variant: \x27default\x27, label: \x27Owner\x27 \x7d,\n    admin: \x7b variant: \x27secondary\x27, label: \x27Admin\x27 \x7d,\n    member: \x7b variant: \x27outline\x27, label: \x27Member\x27 \x7d\n  \x7d as const;\n\n  const config = variants[role as keyof typeof variants] || variants.member;\n\n  return <Badge variant=\x7bconfig.variant\x7d>\x7bconfig.label\x7d</Badge>;\n\x7d\n\x60\x60\x60"),
    ("criteria", "- [ ] Create RoleBadge component\n- [ ] Support owner/admin/member\n- [ ] Consistent colors\n- [ ] Replace duplicate logic"),
    ("effort", "1-2 hours")]),
  ("MED-004",
   [("title", "Create Reusable SourcesList Component"),
    ("summary", "Source citation display duplicated in question-editor and multi-step-dialog."),
    ("implementation", "\x60\x60\x60typescript\n// components/sources-list.tsx\ninterface SourcesListProps \x7b\n  sources: Source[];\n  onSourceClick?: (source: Source) => void;\n  variant?: \x27compact\x27 | \x27expanded\x27;\n\x7d\n\nexport function SourcesList(\x7b sources, onSourceClick, variant = \x27compact\x27 \x7d: SourcesListProps) \x7b\n  return (\n    <div className=\"flex flex-wrap gap-2\">\n      \x7bsources.map((source) => (\n        <Button\n          key=\x7bsource.id\x7d\n          variant=\"outline\"\n          size=\"sm\"\n          onClick=\x7b() => onSourceClick?.(source)\x7d\n        >\n          \x7bsource.fileName\x7d\n          \x7bsource.pageNumber && \x60 (p.$\x7bsource.pageNumber\x7d)\x60\x7d\n        </Button>\n      ))\x7d\n    </div>\n  );\n\x7d\n\x60\x60\x60"),
    ("criteria", "- [ ] Create SourcesList component\n- [ ] Support compact/expanded views\n- [ ] Handle click interactions\n- [ ] Replace duplicate markup"),
    ("effort", "2-3 hours")]),
  ("MED-005",
   [("title", "Replace Any Types with Proper Interfaces"),
    ("summary", "Multiple files use \x60any\x60 types, losing type safety."),
    ("implementation", "Create proper interfaces:\n\x60\x60\x60typescript\n// types/rfp.ts\nexport interface RFPDocument \x7b\n  id: string;\n  sections: RFPSection[];\n\x7d\n\nexport interface RFPSection \x7b\n  id: string;\n  title: string;\n  questions: RFPQuestion[];\n\x7d\n\n// Replace: rfpDocument: any\n// With:    rfpDocument: RFPDocument\n\x60\x60\x60"),
    ("criteria", "- [ ] Define all missing interfaces\n- [ ] Replace Record<string, any>\n- [ ] Enable noImplicitAny\n- [ ] Fix all type errors"),
    ("effort", "4-5 hours")]),
  ("MED-006",
   [("title", "Add Return Type Annotations"),
    ("summary", "Many functions missing explicit return types."),
    ("implementation", "\x60\x60\x60typescript\n// Before\nasync function getOrganization(id: string) \x7b\n  return await db.organization.findUnique(\x7b where: \x7b id \x7d \x7d);\n\x7d\n\n// After\nasync function getOrganization(id: string): Promise<Organization | null> \x7b\n  return await db.organization.findUnique(\x7b where: \x7b id \x7d \x7d);\n\x7d\n\x60\x60\x60"),
    ("criteria", "- [ ] Add return types to all exported functions\n- [ ] Add return types to class methods\n- [ ] Enable noImplicitReturns\n- [ ] Document complex return types"),
    ("effort", "2-3 hours")]),
  ("MED-007",
   [("title", "Implement Error Boundary Components"),
    ("summary", "No error boundaries to catch React errors."),
    ("implementation", "\x60\x60\x60typescript\n// components/error-boundary.tsx\nexport class ErrorBoundary extends React.Component<Props, State> \x7b\n  static getDerivedStateFromError(error: Error) \x7b\n    return \x7b hasError: true, error \x7d;\n  \x7d\n\n  componentDidCatch(error: Error, errorInfo: ErrorInfo) \x7b\n    console.error(\x27Error caught:\x27, error, errorInfo);\n    // Log to monitoring service\n  \x7d\n\n  render() \x7b\n    if (this.state.hasError) \x7b\n      return <ErrorFallback error=\x7bthis.state.error\x7d onReset=\x7bthis.reset\x7d />;\n    \x7d\n    return this.props.children;\n  \x7d\n\x7d\n\x60\x60\x60"),
    ("criteria", "- [ ] Create global error boundary\n- [ ] Add route-level boundaries\n- [ ] Fallback UI\n- [ ] Error logging\n- [ ] Reset functionality"),
    ("effort", "3-4 hours")]),
  ("MED-008",
   [("title", "Standardize Toast Notification Patterns"),
    ("summary", "15+ files with different toast patterns."),
    ("implementation", "\x60\x60\x60typescript\n// lib/utils/toast.ts\nexport const toastUtils = \x7b\n  success: (message: string) => toast.success(message, \x7b duration: 3000 \x7d),\n  error: (error: unknown) => \x7b\n    const message = error instanceof Error ? error.message : \x27An error occurred\x27;\n    toast.error(message, \x7b duration: 5000 \x7d);\n  \x7d,\n  loading: (message: string) => toast.loading(message),\n  promise: <T,>(promise: Promise<T>, messages: \x7b loading: string; success: string; error: string \x7d) =>\n    toast.promise(promise, messages)\n\x7d;\n\x60\x60\x60"),
    ("criteria", "- [ ] Create toast utility functions\n- [ ] Standardize messages\n- [ ] Configure durations\n- [ ] Replace all direct toast calls"),
    ("effort", "2-3 hours")]),
  ("MED-009",
   [("title", "Add Request Cancellation"),
    ("summary", "API calls not cancelled on component unmount."),
    ("implementation", "\x60\x60\x60typescript\nexport function useApi<T>(url: string) \x7b\n  const [data, setData] = useState<T | null>(null);\n\n  useEffect(() => \x7b\n    const abortController = new AbortController();\n\n    fetch(url, \x7b signal: abortController.signal \x7d)\n      .then(res => res.json())\n      .then(setData)\n      .catch(err => \x7b\n        if (err.name !== \x27AbortError\x27) \x7b\n          console.error(err);\n        \x7d\n      \x7d);\n\n    return () => abortController.abort();\n  \x7d, [url]);\n\n  return data;\n\x7d\n\x60\x60\x60"),
    ("criteria", "- [ ] Use AbortController in fetch calls\n- [ ] Cancel on unmount\n- [ ] Handle cancellation errors\n- [ ] Add to custom hooks"),
    ("effort", "3-4 hours")]),
  ("MED-010",
   [("title", "Wrap Database Errors Consistently"),
    ("summary", "Not all Prisma errors wrapped in DatabaseError."),
    ("implementation", "\x60\x60\x60typescript\ntry \x7b\n  return await db.project.create(\x7b data \x7d);\n\x7d catch (error) \x7b\n  if (error instanceof Prisma.PrismaClientKnownRequestError) \x7b\n    throw new DatabaseError(\x60Failed to create project: $\x7berror.message\x7d\x60, error.code);\n  \x7d\n  throw new DatabaseError(\x27Unexpected database error\x27);\n\x7d\n\x60\x60\x60"),
    ("criteria", "- [ ] Wrap all Prisma errors\n- [ ] Add context to messages\n- [ ] Distinguish error types\n- [ ] Log original errors"),
    ("effort", "2-3 hours")]),
  ("MED-011",
   [("title", "Add JSDoc Comments to Public APIs"),
    ("summary", "Missing documentation for exported functions."),
    ("implementation", "\x60\x60\x60typescript\n/**\n * Creates a new project for an organization\n * @param data - Project creation data\n * @param data.name - Project name (required)\n * @param data.organizationId - Organization ID (required)\n * @returns Created project with full details\n * @throws \x7bValidationError\x7d If data is invalid\n * @throws \x7bAuthorizationError\x7d If user lacks permission\n * @example\n * const project = await createProject(\x7b\n *   name: \x27My Project\x27,\n *   organizationId: \x27123\x27\n * \x7d);\n */\nasync function createProject(data: CreateProjectData): Promise<Project> \x7b\n  // ...\n\x7d\n\x60\x60\x60"),
    ("criteria", "- [ ] Add JSDoc to all exports\n- [ ] Document parameters\n- [ ] Add usage examples\n- [ ] Document exceptions\n- [ ] Generate TypeDoc"),
    ("effort", "4-5 hours")]),
  ("MED-012",
   [("title", "Extract Complex Transaction Logic"),
    ("summary", "saveQuestions method is 58 lines - should be broken down."),
    ("implementation", "Break down into smaller functions:\n\x60\x60\x60typescript\nasync saveQuestions(projectId: string, sections: Section[]) \x7b\n  await db.$transaction(async (tx) => \x7b\n    const allQuestions = this.extractAllQuestions(sections);\n    await this.deduplicateQuestions(tx, projectId, allQuestions);\n    await this.batchCreateQuestions(tx, projectId, allQuestions);\n  \x7d);\n\x7d\n\nprivate extractAllQuestions(sections: Section[]): QuestionItem[] \x7b\n  // Extraction logic\n\x7d\n\nprivate async deduplicateQuestions(tx, projectId, questions) \x7b\n  // Deduplication logic\n\x7d\n\x60\x60\x60"),
    ("criteria", "- [ ] Break into smaller functions\n- [ ] Extract question deduplication\n- [ ] Extract batch processing\n- [ ] Add unit tests\n- [ ] Improve error messages"),
    ("effort", "3-4 hours")]),
  ("MED-013",
   [("title", "Add Focus Management to Dialogs"),
    ("summary", "Dialogs don\x27t manage focus properly."),
    ("implementation", "\x60\x60\x60typescript\nexport function Dialog(\x7b open, onOpenChange, children \x7d) \x7b\n  const previousFocusRef = useRef<HTMLElement | null>(null);\n\n  useEffect(() => \x7b\n    if (open) \x7b\n      previousFocusRef.current = document.activeElement as HTMLElement;\n    \x7d else \x7b\n      previousFocusRef.current?.focus();\n    \x7d\n  \x7d, [open]);\n\n  return <DialogPrimitive.Root open=\x7bopen\x7d onOpenChange=\x7bonOpenChange\x7d />;\n\x7d\n\x60\x60\x60"),
    ("criteria", "- [ ] Auto-focus first input\n- [ ] Implement focus trap\n- [ ] Return focus on close\n- [ ] Test keyboard nav\n- [ ] Visual focus indicators"),
    ("effort", "3-4 hours")]),
  ("MED-014",
   [("title", "Add Keyboard Handlers to Clickable Elements"),
    ("summary", "Clickable spans missing keyboard support."),
    ("implementation", "\x60\x60\x60typescript\n<button\n  type=\"button\"\n  onClick=\x7bhandleClick\x7d\n  className=\"...\"\n>\n  \x7btext\x7d\n</button>\n\n// Or if must use span:\n<span\n  role=\"button\"\n  tabIndex=\x7b0\x7d\n  onKeyDown=\x7b(e) => \x7b\n    if (e.key === \x27Enter\x27 || e.key === \x27 \x27) \x7b\n      e.preventDefault();\n      handleClick();\n    \x7d\n  \x7d\x7d\n  onClick=\x7bhandleClick\x7d\n>\n  \x7btext\x7d\n</span>\n\x60\x60\x60"),
    ("criteria", "- [ ] Add onKeyDown to clickable spans\n- [ ] Support Enter and Space\n- [ ] Or convert to buttons\n- [ ] Add role=\x27button\x27\n- [ ] Test keyboard nav"),
    ("effort", "2-3 hours")]),
  ("MED-015",
   [("title", "Implement Structured Logging Service"),
    ("summary", "Using console.log instead of proper logging."),
    ("implementation", "\x60\x60\x60typescript\n// lib/logger.ts\nimport pino from \x27pino\x27;\n\nexport const logger = pino(\x7b\n  level: process.env.LOG_LEVEL || \x27info\x27,\n  formatters: \x7b\n    level: (label) => (\x7b level: label \x7d)\n  \x7d,\n  transport: process.env.NODE_ENV === \x27development\x27 ? \x7b\n    target: \x27pino-pretty\x27\n  \x7d : undefined\n\x7d);\n\n// Usage\nlogger.info(\x7b userId, projectId \x7d, \x27Project created\x27);\nlogger.error(\x7b error \x7d, \x27Failed to create project\x27);\n\x60\x60\x60"),
    ("criteria", "- [ ] Install winston or pino\n- [ ] Create logger wrapper\n- [ ] Configure transports\n- [ ] JSON logging\n- [ ] Request context\n- [ ] Log rotation"),
    ("effort", "4-5 hours")]),
  ("MED-016",
   [("title", "Add API Documentation (Swagger)"),
    ("summary", "No API documentation for endpoints."),
    ("implementation", "\x60\x60\x60typescript\n// Install next-swagger-doc\n/**\n * @swagger\n * /api/projects:\n *   get:\n *     summary: List projects\n *     parameters:\n *       - in: query\n *         name: organizationId\n *         required: true\n *         schema:\n *           type: string\n *     responses:\n *       200:\n *         description: Success\n *         content:\n *           application/json:\n *             schema:\n *               type: array\n *               items:\n *                 $ref: \x27#/components/schemas/Project\x27\n */\nexport async function GET(request: Request) \x7b\x7d\n\x60\x60\x60"),
    ("criteria", "- [ ] Install swagger tools\n- [ ] Document all endpoints\n- [ ] Request/response examples\n- [ ] Error responses\n- [ ] Interactive docs\n- [ ] Add to README"),
    ("effort", "6-8 hours")]),
  ("MED-017",
   [("title", "Add Rate Limiting"),
    ("summary", "No rate limiting on API endpoints."),
    ("implementation", "\x60\x60\x60typescript\n// lib/middleware/rate-limit.ts\nimport \x7b Ratelimit \x7d from \x27@upstash/ratelimit\x27;\nimport \x7b Redis \x7d from \x27@upstash/redis\x27;\n\nconst ratelimit = new Ratelimit(\x7b\n  redis: Redis.fromEnv(),\n  limiter: Ratelimit.slidingWindow(10, \x2710 s\x27),\n\x7d);\n\nexport async function rateLimit(identifier: string) \x7b\n  const \x7b success, limit, reset, remaining \x7d = await ratelimit.limit(identifier);\n\n  if (!success) \x7b\n    throw new Error(\x27Rate limit exceeded\x27);\n  \x7d\n\n  return \x7b limit, reset, remaining \x7d;\n\x7d\n\x60\x60\x60"),
    ("criteria", "- [ ] Install rate limiting library\n- [ ] Add per user/IP limits\n- [ ] Different limits per endpoint\n- [ ] Return 429 status\n- [ ] Rate limit headers\n- [ ] Document limits"),
    ("effort", "3-4 hours")]),
  ("MED-018",
   [("title", "Configure Security Headers"),
    ("summary", "Missing security headers (CSP, X-Frame-Options, etc.)."),
    ("implementation", "\x60\x60\x60typescript\n// next.config.js\nmodule.exports = \x7b\n  async headers() \x7b\n    return [\x7b\n      source: \x27/:path*\x27,\n      headers: [\n        \x7b key: \x27X-Frame-Options\x27, value: \x27DENY\x27 \x7d,\n        \x7b key: \x27X-Content-Type-Options\x27, value: \x27nosniff\x27 \x7d,\n        \x7b key: \x27X-XSS-Protection\x27, value: \x271; mode=block\x27 \x7d,\n        \x7b key: \x27Strict-Transport-Security\x27, value: \x27max-age=31536000\x27 \x7d,\n        \x7b\n          key: \x27Content-Security-Policy\x27,\n          value: \"default-src \x27self\x27; script-src \x27self\x27 \x27unsafe-eval\x27 \x27unsafe-inline\x27\"\n        \x7d\n      ]\n    \x7d];\n  \x7d\n\x7d;\n\x60\x60\x60"),
    ("criteria", "- [ ] Add CSP header\n- [ ] Add X-Frame-Options\n- [ ] Add X-Content-Type-Options\n- [ ] Add HSTS\n- [ ] Configure CORS\n- [ ] Test with securityheaders.com"),
    ("effort", "2-3 hours")]),
  ("MED-019",
   [("title", "Add CORS Configuration"),
    ("summary", "No explicit CORS configuration."),
    ("implementation", "\x60\x60\x60typescript\n// middleware.ts or API routes\nconst allowedOrigins = [\n  process.env.NEXT_PUBLIC_APP_URL,\n  \x27http://localhost:3000\x27\n];\n\nexport function corsHeaders(origin?: string) \x7b\n  const headers = new Headers();\n\n  if (origin && allowedOrigins.includes(origin)) \x7b\n    headers.set(\x27Access-Control-Allow-Origin\x27, origin);\n    headers.set(\x27Access-Control-Allow-Methods\x27, \x27GET, POST, PUT, DELETE, OPTIONS\x27);\n    headers.set(\x27Access-Control-Allow-Headers\x27, \x27Content-Type, Authorization\x27);\n  \x7d\n\n  return headers;\n\x7d\n\x60\x60\x60"),
    ("criteria", "- [ ] Define allowed origins\n- [ ] Configure allowed methods\n- [ ] Preflight handling\n- [ ] Credentials support\n- [ ] Test cross-origin requests"),
    ("effort", "2-3 hours")]),
  ("MED-020",
   [("title", "Optimize Framer Motion Animations"),
    ("summary", "Animations recalculate on every render, causing performance issues."),
    ("implementation", "\x60\x60\x60typescript\n// Memoize variants\nconst variants = useMemo(() => (\x7b\n  initial: \x7b opacity: 0, y: 20 \x7d,\n  animate: \x7b opacity: 1, y: 0 \x7d,\n  exit: \x7b opacity: 0, y: -20 \x7d\n\x7d), []);\n\n// Use layoutId for optimized animations\n<motion.div\n  layoutId=\"step-container\"\n  variants=\x7bvariants\x7d\n  initial=\"initial\"\n  animate=\"animate\"\n>\n  \x7bcontent\x7d\n</motion.div>\n\x60\x60\x60"),
    ("criteria", "- [ ] Add layoutId for layout animations\n- [ ] Use transform instead of layout\n- [ ] Memoize animation variants\n- [ ] Reduce animation complexity\n- [ ] Test with React DevTools Profiler"),
    ("effort", "2-3 hours")])
]

/-- The `LOW_ISSUES` catalog of the source file, verbatim: an ordered
Python dict of id to field dict, embedded as an association list. -/
def LOW_ISSUES : List (String × IssueData) := [
  ("LOW-001",
   [("title", "Add Unit Tests"),
    ("summary", "No unit tests found in codebase."),
    ("implementation", "Set up Jest and React Testing Library. Add tests for services, utilities, hooks, and components. Target 80% coverage for critical paths."),
    ("criteria", "- [ ] Set up Jest + RTL\n- [ ] Test services (80% coverage)\n- [ ] Test utilities\n- [ ] Test hooks\n- [ ] Test components\n- [ ] CI integration"),
    ("effort", "20-30 hours (ongoing)")]),
  ("LOW-002",
   [("title", "Add Integration Tests"),
    ("summary", "No end-to-end testing."),
    ("implementation", "Set up Playwright or Cypress. Test auth flow, project creation, question extraction, and response generation end-to-end."),
    ("criteria", "- [ ] Set up Playwright/Cypress\n- [ ] Test auth flow\n- [ ] Test project creation\n- [ ] Test question extraction\n- [ ] Test response generation\n- [ ] CI integration"),
    ("effort", "15-20 hours (ongoing)")]),
  ("LOW-003",
   [("title", "Add Performance Monitoring"),
    ("summary", "No performance tracking."),
    ("implementation", "Add React DevTools Profiler markers, Web Vitals monitoring, API response time tracking, and database query performance monitoring."),
    ("criteria", "- [ ] Add Profiler markers\n- [ ] Web Vitals monitoring\n- [ ] Track API response times\n- [ ] Monitor DB queries\n- [ ] Set up alerting"),
    ("effort", "4-5 hours")]),
  ("LOW-004",
   [("title", "Implement Component Lazy Loading"),
    ("summary", "All components loaded eagerly."),
    ("implementation", "Use React.lazy for route components. Add Suspense boundaries with loading states. Test code splitting in production build."),
    ("criteria", "- [ ] Identify heavy components\n- [ ] Implement React.lazy\n- [ ] Add Suspense boundaries\n- [ ] Add loading states\n- [ ] Test code splitting"),
    ("effort", "3-4 hours")]),
  ("LOW-005",
   [("title", "Add Component Storybook"),
    ("summary", "No component library documentation."),
    ("implementation", "Install Storybook. Create stories for UI components with all variants. Document props and usage. Add interaction tests."),
    ("criteria", "- [ ] Install Storybook\n- [ ] Create stories for UI components\n- [ ] Document props/variants\n- [ ] Add interaction tests\n- [ ] Deploy Storybook"),
    ("effort", "8-10 hours")]),
  ("LOW-006",
   [("title", "Improve Error Messages"),
    ("summary", "Error messages too technical for users."),
    ("implementation", "Review all user-facing errors. Make messages actionable with suggestions. Avoid technical jargon. Test all error states."),
    ("criteria", "- [ ] Review all error messages\n- [ ] Make messages actionable\n- [ ] Add resolution suggestions\n- [ ] Avoid technical jargon\n- [ ] Test error states"),
    ("effort", "3-4 hours")]),
  ("LOW-007",
   [("title", "Add Input Sanitization Library"),
    ("summary", "No explicit input sanitization."),
    ("implementation", "Install DOMPurify. Sanitize user input before display and storage. Add to validation pipeline."),
    ("criteria", "- [ ] Install DOMPurify\n- [ ] Sanitize before display\n- [ ] Sanitize before storage\n- [ ] Add to validation pipeline"),
    ("effort", "2-3 hours")]),
  ("LOW-008",
   [("title", "Add Database Migration Documentation"),
    ("summary", "Missing migration procedures."),
    ("implementation", "Document migration process, rollback procedures, seed data usage, backup procedures, and create migration checklist."),
    ("criteria", "- [ ] Document migration process\n- [ ] Add rollback procedures\n- [ ] Document seed data\n- [ ] Add backup procedures\n- [ ] Create migration checklist"),
    ("effort", "2-3 hours")]),
  ("LOW-009",
   [("title", "Optimize Bundle Size"),
    ("summary", "No bundle size optimization."),
    ("implementation", "Analyze bundle with @next/bundle-analyzer. Remove unused dependencies. Use tree-shaking. Lazy load large dependencies. Target <200KB initial bundle."),
    ("criteria", "- [ ] Analyze bundle\n- [ ] Remove unused deps\n- [ ] Use tree-shaking\n- [ ] Lazy load large deps\n- [ ] Target <200KB initial"),
    ("effort", "4-5 hours")]),
  ("LOW-010",
   [("title", "Add Git Hooks"),
    ("summary", "No pre-commit hooks for code quality."),
    ("implementation", "Install husky. Add pre-commit hook for lint and type-check. Add commit-msg hook for conventional commits. Add pre-push hook for tests."),
    ("criteria", "- [ ] Install husky\n- [ ] Pre-commit (lint, type-check)\n- [ ] Commit-msg (conventional)\n- [ ] Pre-push (tests)\n- [ ] Document in CONTRIBUTING.md"),
    ("effort", "1-2 hours")]),
  ("LOW-011",
   [("title", "Add Changelog"),
    ("summary", "No CHANGELOG.md tracking changes."),
    ("implementation", "Create CHANGELOG.md using Keep a Changelog format. Document breaking changes, new features, and bug fixes for each release."),
    ("criteria", "- [ ] Create CHANGELOG.md\n- [ ] Use Keep a Changelog format\n- [ ] Document breaking changes\n- [ ] Document new features\n- [ ] Update with each release"),
    ("effort", "1-2 hours (ongoing)")]),
  ("LOW-012",
   [("title", "Expand Contributing Guidelines"),
    ("summary", "CONTRIBUTING.md needs more detail."),
    ("implementation", "Document code style, PR process, testing requirements. Add issue and PR templates."),
    ("criteria", "- [ ] Document code style\n- [ ] Document PR process\n- [ ] Add issue templates\n- [ ] Add PR template\n- [ ] Document testing requirements"),
    ("effort", "3-4 hours")])
]

/-- The list of work items `main` iterates: every entry of `MEDIUM_ISSUES`
with priority `"MED"`, then every entry of `LOW_ISSUES` with `"LOW"`. -/
def mainItems : List WorkItem :=
  MEDIUM_ISSUES.map (fun x => (x.1, x.2, "MED")) ++
    LOW_ISSUES.map (fun x => (x.1, x.2, "LOW"))

/-- Running `main` from an empty directory: the final filesystem, the
`created` list, and the uncaught error if the run died. -/
def mainRun : FS × List String × Option PyError := writeIssues [] [] mainItems

/-- What `main` prints to standard output: the count banner, then one
indented line per created path; nothing if an exception escaped first. -/
def mainStdout : List String :=
  match mainRun with
  | (_, created, none) =>
      ("✅ Created " ++ toString created.length ++ " issue files:") ::
        created.map (fun f => "  - " ++ f)
  | (_, _, some _) => []

/-! Analysis vocabulary: documents as lists of lines, and the section
parser used to state the round-trip property. -/

/-- Split a character list into its lines at every newline; the result is
never empty and `joinLines` inverts it. -/
def splitLines : List Char → List (List Char)
  | [] => [[]]
  | c :: cs =>
    if c = '\n' then [] :: splitLines cs
    else (c :: (splitLines cs).headI) :: (splitLines cs).tail

/-- Join lines with newline characters: the left inverse of `splitLines`. -/
def joinLines : List (List Char) → List Char
  | [] => []
  | [l] => l
  | l :: ls => l ++ '\n' :: joinLines ls

/-- The `Summary` header line of the template. -/
def SummaryH : List Char := "### Summary".data

/-- The `Implementation` header line of the template. -/
def ImplementationH : List Char := "### Implementation".data

/-- The `Acceptance Criteria` header line of the template. -/
def CriteriaH : List Char := "### Acceptance Criteria".data

/-- The `Estimated Effort` header line of the template. -/
def EffortH : List Char := "### Estimated Effort".data

/-- Drop lines up to and through the first line equal to `h`. -/
def dropThroughLine (h : List Char) : List (List Char) → List (List Char)
  | [] => []
  | l :: ls => if l = h then ls else dropThroughLine h ls

/-- Take the lines strictly before the first line equal to `h`. -/
def takeBeforeLine (h : List Char) : List (List Char) → List (List Char)
  | [] => []
  | l :: ls => if l = h then [] else l :: takeBeforeLine h ls

/-- Parse one section of a rendered document: the lines strictly between the
first line equal to `h` and the following line equal to `h2`, without the
blank separator line the template inserts, joined back with newlines. -/
def sectionBetween (h h2 doc : List Char) : List Char :=
  joinLines ((takeBeforeLine h2 (dropThroughLine h (splitLines doc))).dropLast)

/-- Parse the final section: every line after the first line equal to `h`,
without the empty line produced by the template's trailing newline. -/
def sectionAfter (h doc : List Char) : List Char :=
  joinLines ((dropThroughLine h (splitLines doc)).dropLast)

/-- The section parser of the round-trip property: recover the four text
fields of a record from a rendered document by scanning for the template's
section headers. -/
def parseSections (doc : List Char) :
    List Char × List Char × List Char × List Char :=
  (sectionBetween SummaryH ImplementationH doc,
   sectionBetween ImplementationH CriteriaH doc,
   sectionBetween CriteriaH EffortH doc,
   sectionAfter EffortH doc)

/-- The document a successful render produces (`""` on error); the content
string `create_issue_file` writes. -/
def renderOut (issue_data : IssueData) (priority : String) : String :=
  ((renderContent issue_data priority).toOption).getD ""

/-- Whether a `create_issue_file` call raised the design spec's
`ConfigurationError`. -/
def raisedConfigErr : Except PyError (FS × String) → Bool
  | Except.error (PyError.configurationError _) => true
  | _ => false

/-- The file entry a successful work item leaves on disk. -/
def entryOf (it : WorkItem) : String × String :=
  (pathOf it.1, renderOut it.2.1 it.2.2)

/-- A small complete record used to instantiate the general theorems. -/
def sampleIssue : IssueData :=
  [("title", "T"), ("summary", "S"), ("implementation", "I"),
   ("criteria", "C"), ("effort", "E")]

/-- The same record with its fields listed in another order: a different
dict with the same field values. -/
def sampleIssueReordered : IssueData :=
  [("effort", "E"), ("criteria", "C"), ("implementation", "I"),
   ("summary", "S"), ("title", "T")]

/-- Whether `pat` is a prefix of `l`. -/
def startsWith : List Char → List Char → Bool
  | [], _ => true
  | _ :: _, [] => false
  | p :: ps, c :: cs => p == c && startsWith ps cs

/-- Whether `pat` occurs contiguously inside `l`. -/
def containsSub (pat : List Char) : List Char → Bool
  | [] => startsWith pat []
  | c :: cs => startsWith pat (c :: cs) || containsSub pat cs

/-! Basic facts about `splitLines` and `joinLines`. -/

theorem splitLines_ne_nil (xs : List Char) : splitLines xs ≠ [] := by
  cases xs with
  | nil => simp [splitLines]
  | cons c cs =>
    simp only [splitLines]
    split <;> simp

theorem splitLines_of_not_newline (xs : List Char) (h : '\n' ∉ xs) :
    splitLines xs = [xs] := by
  induction xs with
  | nil => rfl
  | cons c cs ih =>
    have hc : c ≠ '\n' := fun hc => h (hc ▸ List.mem_cons_self c cs)
    have hcs : '\n' ∉ cs := fun hm => h (List.mem_cons_of_mem c hm)
    simp [splitLines, if_neg hc, ih hcs]

theorem splitLines_line (xs ys : List Char) (h : '\n' ∉ xs) :
    splitLines (xs ++ '\n' :: ys) = xs :: splitLines ys := by
  induction xs with
  | nil => simp [splitLines]
  | cons c cs ih =>
    have hc : c ≠ '\n' := fun hc => h (hc ▸ List.mem_cons_self c cs)
    have hcs : '\n' ∉ cs := fun hm => h (List.mem_cons_of_mem c hm)
    rw [List.cons_append]
    simp [splitLines, if_neg hc, ih hcs]

theorem splitLines_append_newline (xs ys : List Char) :
    splitLines (xs ++ '\n' :: ys) = splitLines xs ++ splitLines ys := by
  induction xs with
  | nil => simp [splitLines]
  | cons c cs ih =>
    by_cases hc : c = '\n'
    · subst hc
      rw [List.cons_append]
      simp [splitLines, ih]
    · rw [List.cons_append]
      simp only [splitLines, if_neg hc, ih]
      cases h : splitLines cs with
      | nil => exact absurd h (splitLines_ne_nil cs)
      | cons l ls => simp

theorem joinLines_splitLines (xs : List Char) :
    joinLines (splitLines xs) = xs := by
  induction xs with
  | nil => rfl
  | cons c cs ih =>
    by_cases hc : c = '\n'
    · subst hc
      simp only [splitLines, if_pos rfl]
      cases h : splitLines cs with
      | nil => exact absurd h (splitLines_ne_nil cs)
      | cons l ls =>
        rw [h] at ih
        simp [joinLines, ih]
    · simp only [splitLines, if_neg hc]
      cases h : splitLines cs with
      | nil => exact absurd h (splitLines_ne_nil cs)
      | cons l ls =>
        rw [h] at ih
        cases ls with
        | nil => simp_all [joinLines]
        | cons m ms => simp_all [joinLines]

theorem string_data_append (a b : String) : (a ++ b).data = a.data ++ b.data :=
  rfl

theorem splitLines_nil : splitLines [] = [[]] := rfl

theorem splitLines_newline_cons (ys : List Char) :
    splitLines ('\n' :: ys) = [] :: splitLines ys := by
  simp [splitLines]

/-- A successful emoji lookup pins down both the priority and the emoji. -/
theorem priority_emoji_cases (p em : String)
    (h : getKey priority_emoji p = Except.ok em) :
    (p = "MED" ∧ em = "🟡") ∨ (p = "LOW" ∧ em = "🟢") := by
  by_cases hm : p = "MED"
  · subst hm
    left
    refine ⟨rfl, ?_⟩
    have : Except.ok (ε := PyError) "🟡" = Except.ok em := h
    exact (Except.ok.inj this).symm
  · by_cases hl : p = "LOW"
    · subst hl
      right
      refine ⟨rfl, ?_⟩
      have : Except.ok (ε := PyError) "🟢" = Except.ok em := h
      exact (Except.ok.inj this).symm
    · exfalso
      have hm2 : (p == "MED") = false := beq_eq_false_iff_ne.mpr hm
      have hl2 : (p == "LOW") = false := beq_eq_false_iff_ne.mpr hl
      simp [getKey, priority_emoji, List.lookup, hm2, hl2] at h

/-- A successful label lookup pins down both the priority and the label. -/
theorem priority_name_cases (p nm : String)
    (h : getKey priority_name p = Except.ok nm) :
    (p = "MED" ∧ nm = "Medium") ∨ (p = "LOW" ∧ nm = "Low") := by
  by_cases hm : p = "MED"
  · subst hm
    left
    refine ⟨rfl, ?_⟩
    have : Except.ok (ε := PyError) "Medium" = Except.ok nm := h
    exact (Except.ok.inj this).symm
  · by_cases hl : p = "LOW"
    · subst hl
      right
      refine ⟨rfl, ?_⟩
      have : Except.ok (ε := PyError) "Low" = Except.ok nm := h
      exact (Except.ok.inj this).symm
    · exfalso
      have hm2 : (p == "MED") = false := beq_eq_false_iff_ne.mpr hm
      have hl2 : (p == "LOW") = false := beq_eq_false_iff_ne.mpr hl
      simp [getKey, priority_name, List.lookup, hm2, hl2] at h

/-- With all seven subscripts succeeding, the renderer returns the template
instantiated verbatim. -/
theorem renderContent_ok (d : IssueData) (p t em nm s i cr e : String)
    (h1 : getKey d "title" = Except.ok t)
    (h2 : getKey priority_emoji p = Except.ok em)
    (h3 : getKey priority_name p = Except.ok nm)
    (h4 : getKey d "summary" = Except.ok s)
    (h5 : getKey d "implementation" = Except.ok i)
    (h6 : getKey d "criteria" = Except.ok cr)
    (h7 : getKey d "effort" = Except.ok e) :
    renderContent d p = Except.ok ("# " ++ t ++ "\n\n## " ++ em ++ " " ++ nm ++
      " Priority\n\n### Summary\n" ++ s ++
      "\n\n### Implementation\n" ++ i ++
      "\n\n### Acceptance Criteria\n" ++ cr ++
      "\n\n### Estimated Effort\n" ++ e ++ "\n") := by
  simp [renderContent, h1, h2, h3, h4, h5, h6, h7, Bind.bind, Except.bind]

/-- The lines of a successfully rendered document: the title heading, a
blank, the priority line, a blank, then the four sections, each introduced by
its header line and populated by the lines of its field. -/
theorem splitLines_renderContent (d : IssueData) (p t em nm s i cr e c : String)
    (h1 : getKey d "title" = Except.ok t)
    (h2 : getKey priority_emoji p = Except.ok em)
    (h3 : getKey priority_name p = Except.ok nm)
    (h4 : getKey d "summary" = Except.ok s)
    (h5 : getKey d "implementation" = Except.ok i)
    (h6 : getKey d "criteria" = Except.ok cr)
    (h7 : getKey d "effort" = Except.ok e)
    (hc : renderContent d p = Except.ok c)
    (ht : '\n' ∉ t.data) (hem : '\n' ∉ em.data) (hnm : '\n' ∉ nm.data) :
    splitLines c.data =
      ("# ".data ++ t.data) :: [] ::
        ("## ".data ++ (em.data ++ ' ' :: (nm.data ++ " Priority".data))) :: [] ::
        SummaryH :: (splitLines s.data ++ [] :: ImplementationH ::
          (splitLines i.data ++ [] :: CriteriaH ::
            (splitLines cr.data ++ [] :: EffortH ::
              (splitLines e.data ++ [[]])))) := by
  rw [renderContent_ok d p t em nm s i cr e h1 h2 h3 h4 h5 h6 h7] at hc
  have hbc := Except.ok.inj hc
  have e1 : ("\n\n## ".data : List Char) = '\n' :: '\n' :: "## ".data := rfl
  have e2 : (" Priority\n\n### Summary\n".data : List Char) =
      " Priority".data ++ ('\n' :: ('\n' :: (SummaryH ++ ['\n']))) := rfl
  have e3 : ("\n\n### Implementation\n".data : List Char) =
      '\n' :: '\n' :: (ImplementationH ++ ['\n']) := rfl
  have e4 : ("\n\n### Acceptance Criteria\n".data : List Char) =
      '\n' :: '\n' :: (CriteriaH ++ ['\n']) := rfl
  have e5 : ("\n\n### Estimated Effort\n".data : List Char) =
      '\n' :: '\n' :: (EffortH ++ ['\n']) := rfl
  have e6 : ("\n".data : List Char) = ['\n'] := rfl
  have e7 : (" ".data : List Char) = [' '] := rfl
  have hcv : c.data = ("# ".data ++ t.data) ++ '\n' :: ('\n' ::
      (("## ".data ++ (em.data ++ ' ' :: (nm.data ++ " Priority".data))) ++
        '\n' :: ('\n' ::
        (SummaryH ++ '\n' :: (s.data ++ '\n' :: ('\n' ::
          (ImplementationH ++ '\n' :: (i.data ++ '\n' :: ('\n' ::
            (CriteriaH ++ '\n' :: (cr.data ++ '\n' :: ('\n' ::
              (EffortH ++ '\n' :: (e.data ++ '\n' ::
                ([] : List Char))))))))))))))) := by
    rw [← hbc]
    simp only [string_data_append, e1, e2, e3, e4, e5, e6, e7,
      SummaryH, ImplementationH, CriteriaH, EffortH,
      List.append_assoc, List.cons_append, List.singleton_append,
      List.nil_append]
  have hline0 : '\n' ∉ "# ".data ++ t.data := by
    intro h
    rcases List.mem_append.mp h with h | h
    · exact absurd h (by decide)
    · exact ht h
  have hline2 : '\n' ∉
      "## ".data ++ (em.data ++ ' ' :: (nm.data ++ " Priority".data)) := by
    intro h
    rcases List.mem_append.mp h with h | h
    · exact absurd h (by decide)
    · rcases List.mem_append.mp h with h | h
      · exact hem h
      · rcases List.mem_cons.mp h with h | h
        · exact absurd h (by decide)
        · rcases List.mem_append.mp h with h | h
          · exact hnm h
          · exact absurd h (by decide)
  have hs : '\n' ∉ SummaryH := by decide
  have hi : '\n' ∉ ImplementationH := by decide
  have hcr : '\n' ∉ CriteriaH := by decide
  have he : '\n' ∉ EffortH := by decide
  rw [hcv, splitLines_line _ _ hline0, splitLines_newline_cons,
    splitLines_line _ _ hline2, splitLines_newline_cons,
    splitLines_line _ _ hs, splitLines_append_newline,
    splitLines_newline_cons, splitLines_line _ _ hi,
    splitLines_append_newline, splitLines_newline_cons,
    splitLines_line _ _ hcr, splitLines_append_newline,
    splitLines_newline_cons, splitLines_line _ _ he,
    splitLines_append_newline, splitLines_nil]

/-! Claim theorems. -/

/-- C5: rendering is pure and deterministic — two renderer calls on
identical record data (the same five field values and the same priority
class, regardless of how the dict lists them) yield byte-identical
document strings. -/
theorem render_deterministic_extensional (d1 d2 : IssueData) (p1 p2 : String)
    (hp : p1 = p2)
    (ht : d1.lookup "title" = d2.lookup "title")
    (hs : d1.lookup "summary" = d2.lookup "summary")
    (hi : d1.lookup "implementation" = d2.lookup "implementation")
    (hcr : d1.lookup "criteria" = d2.lookup "criteria")
    (he : d1.lookup "effort" = d2.lookup "effort") :
    renderContent d1 p1 = renderContent d2 p2 := by
  subst hp
  simp only [renderContent, getKey, ht, hs, hi, hcr, he]

/-- C5 witness: the determinism theorem applied to a concrete record and a
reordered copy of it. -/
theorem render_deterministic_extensional_witness :
    renderContent sampleIssue "MED" = renderContent sampleIssueReordered "MED" :=
  render_deterministic_extensional sampleIssue sampleIssueReordered "MED" "MED"
    rfl (by decide) (by decide) (by decide) (by decide) (by decide)

/-- C9: the catalog record `MED-002` renders to a document whose first line
is `# Create Reusable LoadingSpinner Component` and whose priority line (the
third line) contains the literal label `Medium`. -/
theorem med002_rendering :
    (renderContent ((MEDIUM_ISSUES.lookup "MED-002").getD []) "MED").isOk = true
    ∧ (splitLines (renderOut ((MEDIUM_ISSUES.lookup "MED-002").getD [])
        "MED").data).headI = "# Create Reusable LoadingSpinner Component".data
    ∧ containsSub "Medium".data
        ((splitLines (renderOut ((MEDIUM_ISSUES.lookup "MED-002").getD [])
          "MED").data).getD 2 []) = true := by
  refine ⟨by decide, by decide, by decide⟩

/-- C4 (amended): a record whose priority is outside `{MED, LOW}` makes the
run fail with Python's `KeyError` on the priority (not with the spec's
`ConfigurationError`), the failure happening inside the f-string before the
file is opened, so the filesystem is untouched by that record and every
later one. -/
theorem unknown_priority_fails_before_write
    (fs : FS) (created : List String) (issue_id : String) (d : IssueData)
    (p : String) (rest : List WorkItem)
    (htit : (d.lookup "title").isSome)
    (hm : p ≠ "MED") (hl : p ≠ "LOW") :
    writeIssues fs created ((issue_id, d, p) :: rest) =
      (fs, created, some (PyError.keyError p)) := by
  obtain ⟨t, ht⟩ := Option.isSome_iff_exists.mp htit
  have h1 : getKey d "title" = Except.ok t := by simp [getKey, ht]
  have hm2 : (p == "MED") = false := beq_eq_false_iff_ne.mpr hm
  have hl2 : (p == "LOW") = false := beq_eq_false_iff_ne.mpr hl
  have h2 : getKey priority_emoji p = Except.error (PyError.keyError p) := by
    simp [getKey, priority_emoji, List.lookup, hm2, hl2]
  have hr : renderContent d p = Except.error (PyError.keyError p) := by
    simp [renderContent, h1, h2, Bind.bind, Except.bind]
  have hcf : create_issue_file fs issue_id d p =
      Except.error (PyError.keyError p) := by
    simp [create_issue_file, hr, Bind.bind, Except.bind]
  simp [writeIssues, hcf]

/-- C4 witness: the unknown-priority theorem applied to a concrete record
with priority `HIGH`, starting from an empty directory. -/
theorem unknown_priority_fails_before_write_witness :
    writeIssues [] [] [("X", sampleIssue, "HIGH")] =
      ([], [], some (PyError.keyError "HIGH")) :=
  unknown_priority_fails_before_write [] [] "X" sampleIssue "HIGH" []
    (by decide) (by decide) (by decide)

/-- C4 counterexample: on an unknown priority the code raises `KeyError`,
not the `ConfigurationError` the claim names. -/
theorem unknown_priority_keyerror_cex :
    create_issue_file [] "X" sampleIssue "HIGH" =
      Except.error (PyError.keyError "HIGH")
    ∧ raisedConfigErr (create_issue_file [] "X" sampleIssue "HIGH") = false := by
  refine ⟨by decide, by decide⟩

/-! The writer: facts about `fsWrite`, `create_issue_file` and the loop. -/

theorem fsWrite_of_not_mem (fs : FS) (p c : String)
    (h : p ∉ fs.map Prod.fst) : fsWrite fs p c = fs ++ [(p, c)] := by
  unfold fsWrite
  rw [if_neg]
  intro hany
  rw [List.any_eq_true] at hany
  obtain ⟨x, hx, hxp⟩ := hany
  exact h (List.mem_map.mpr ⟨x, hx, by simpa using hxp⟩)

theorem eq_of_mem_of_nodup_keys (fs : FS)
    (hnd : (fs.map Prod.fst).Nodup) {x y : String × String}
    (hx : x ∈ fs) (hy : y ∈ fs) (hk : x.1 = y.1) : x = y := by
  induction fs with
  | nil => cases hx
  | cons a fs ih =>
    rw [List.map_cons, List.nodup_cons] at hnd
    rcases List.mem_cons.mp hx with rfl | hx2 <;>
      rcases List.mem_cons.mp hy with rfl | hy2
    · rfl
    · exact absurd (List.mem_map.mpr ⟨y, hy2, hk.symm⟩) hnd.1
    · exact absurd (List.mem_map.mpr ⟨x, hx2, hk⟩) hnd.1
    · exact ih hnd.2 hx2 hy2

theorem fsWrite_self_mem (fs : FS) (p c : String)
    (hnd : (fs.map Prod.fst).Nodup) (hmem : (p, c) ∈ fs) :
    fsWrite fs p c = fs := by
  unfold fsWrite
  rw [if_pos]
  · have hfix : ∀ x ∈ fs, (if x.1 == p then (p, c) else x) = x := by
      intro x hx
      by_cases hxp : x.1 = p
      · have : x = (p, c) :=
          eq_of_mem_of_nodup_keys fs hnd hx hmem (by simpa using hxp)
        rw [if_pos (by simpa using hxp), this]
      · rw [if_neg (by simpa using hxp)]
    calc fs.map (fun x => if x.1 == p then (p, c) else x)
        = fs.map id := List.map_congr_left hfix
      _ = fs := List.map_id fs
  · rw [List.any_eq_true]
    exact ⟨(p, c), hmem, by simp⟩

theorem create_issue_file_ok (fs : FS) (issue_id : String) (d : IssueData)
    (p content : String) (h : renderContent d p = Except.ok content) :
    create_issue_file fs issue_id d p =
      Except.ok (fsWrite fs (pathOf issue_id) content, pathOf issue_id) := by
  simp [create_issue_file, h, pathOf, Bind.bind, Except.bind]

theorem create_issue_file_error (fs : FS) (issue_id : String) (d : IssueData)
    (p : String) (err : PyError) (h : renderContent d p = Except.error err) :
    create_issue_file fs issue_id d p = Except.error err := by
  simp [create_issue_file, h, Bind.bind, Except.bind]

/-- A prefix of the work list that succeeds composes with the rest. -/
theorem writeIssues_append (pre rest : List WorkItem) :
    ∀ fs c fs1 c1, writeIssues fs c pre = (fs1, c1, none) →
      writeIssues fs c (pre ++ rest) = writeIssues fs1 c1 rest := by
  induction pre with
  | nil =>
    intro fs c fs1 c1 h
    simp only [writeIssues] at h
    have h1 : fs = fs1 := congrArg Prod.fst h
    have h2 : c = c1 := congrArg (fun x => x.2.1) h
    subst h1
    subst h2
    simp
  | cons it pre ih =>
    intro fs c fs1 c1 h
    obtain ⟨issue_id, d, p⟩ := it
    simp only [writeIssues, List.cons_append] at h ⊢
    cases hcf : create_issue_file fs issue_id d p with
    | ok r =>
      obtain ⟨fs2, fn⟩ := r
      rw [hcf] at h
      exact ih _ _ _ _ h
    | error e =>
      rw [hcf] at h
      exact absurd (congrArg (fun x => x.2.2) h) (by simp)

/-- A successful run over fresh, pairwise-distinct paths appends exactly one
file per item, in order, with the rendered content; the report lists the
paths in the same order; and every item's render succeeded. -/
theorem writeIssues_ok_shape (items : List WorkItem) :
    ∀ fs c fs1 c1, writeIssues fs c items = (fs1, c1, none) →
      (∀ it ∈ items, pathOf it.1 ∉ fs.map Prod.fst) →
      (items.map fun it => pathOf it.1).Nodup →
      fs1 = fs ++ items.map entryOf ∧
        c1 = c ++ (items.map fun it => pathOf it.1) ∧
        ∀ it ∈ items, (renderContent it.2.1 it.2.2).isOk = true := by
  induction items with
  | nil =>
    intro fs c fs1 c1 h hfresh hnd
    simp only [writeIssues] at h
    refine ⟨?_, ?_, by simp⟩
    · simpa using (congrArg Prod.fst h).symm
    · simpa using (congrArg (fun x => x.2.1) h).symm
  | cons it rest ih =>
    intro fs c fs1 c1 h hfresh hnd
    obtain ⟨issue_id, d, p⟩ := it
    simp only [writeIssues] at h
    cases hr : renderContent d p with
    | error e =>
      rw [create_issue_file_error fs issue_id d p e hr] at h
      exact absurd (congrArg (fun x => x.2.2) h) (by simp)
    | ok content =>
      rw [create_issue_file_ok fs issue_id d p content hr] at h
      have hfr : pathOf issue_id ∉ fs.map Prod.fst :=
        hfresh _ (List.mem_cons_self _ _)
      rw [fsWrite_of_not_mem fs _ content hfr] at h
      simp only [List.map_cons, List.nodup_cons] at hnd
      have hfresh2 : ∀ x ∈ rest, pathOf x.1 ∉ (fs ++ [(pathOf issue_id,
          content)]).map Prod.fst := by
        intro x hx
        rw [List.map_append]
        intro hmem
        rcases List.mem_append.mp hmem with hmem | hmem
        · exact hfresh x (List.mem_cons_of_mem _ hx) hmem
        · have : pathOf x.1 = pathOf issue_id := by simpa using hmem
          exact hnd.1 (this ▸ List.mem_map.mpr ⟨x, hx, rfl⟩)
      obtain ⟨h1, h2, h3⟩ := ih _ _ _ _ h hfresh2 hnd.2
      refine ⟨?_, ?_, ?_⟩
      · rw [h1, List.append_assoc]
        simp only [List.map_cons, List.singleton_append]
        have hout : renderOut d p = content := by
          simp [renderOut, hr, Except.toOption]
        simp [entryOf, hout]
      · rw [h2, List.append_assoc]
        simp
      · intro x hx
        rcases List.mem_cons.mp hx with rfl | hx2
        · simp [hr, Except.isOk, Except.toBool]
        · exact h3 x hx2

/-- Two distinct identifiers never map to the same output path. -/
theorem pathOf_injective (a b : String) (h : pathOf a = pathOf b) : a = b := by
  have h2 := congrArg String.data h
  simp only [pathOf, string_data_append] at h2
  exact String.ext (List.append_cancel_left (List.append_cancel_right h2))

/-- Re-running the writer when every target file already holds its rendered
content rewrites each file in place and changes nothing. -/
theorem writeIssues_rewrite_noop (items : List WorkItem) :
    ∀ fs c, (fs.map Prod.fst).Nodup →
      (∀ it ∈ items, entryOf it ∈ fs) →
      (∀ it ∈ items, (renderContent it.2.1 it.2.2).isOk = true) →
      writeIssues fs c items = (fs, c ++ (items.map fun it => pathOf it.1),
        none) := by
  induction items with
  | nil =>
    intro fs c hnd hin hok
    simp [writeIssues]
  | cons it rest ih =>
    intro fs c hnd hin hok
    obtain ⟨issue_id, d, p⟩ := it
    have hokh := hok _ (List.mem_cons_self _ _)
    cases hr : renderContent d p with
    | error e => rw [hr] at hokh; simp [Except.isOk, Except.toBool] at hokh
    | ok content =>
      have hout : renderOut d p = content := by
        simp [renderOut, hr, Except.toOption]
      have hmem : (pathOf issue_id, content) ∈ fs := by
        have := hin _ (List.mem_cons_self _ _)
        simpa [entryOf, hout] using this
      simp only [writeIssues,
        create_issue_file_ok fs issue_id d p content hr,
        fsWrite_self_mem fs _ content hnd hmem]
      rw [ih fs (c ++ [pathOf issue_id]) hnd
        (fun x hx => hin x (List.mem_cons_of_mem _ hx))
        (fun x hx => hok x (List.mem_cons_of_mem _ hx))]
      simp

/-- C1: on a catalog of pairwise-distinct identifiers, a completed run
creates exactly one file per record, in catalog order, at exactly the path
`.github/issues/<id>.md` with the identifier verbatim. -/
theorem writer_one_file_per_record (items : List WorkItem)
    (fs1 : FS) (c1 : List String)
    (hnd : (items.map fun it => it.1).Nodup)
    (hrun : writeIssues [] [] items = (fs1, c1, none)) :
    fs1.map Prod.fst = (items.map fun it => pathOf it.1) ∧
      fs1.length = items.length := by
  have hpaths : (items.map fun it => pathOf it.1).Nodup := by
    have : (items.map fun it => pathOf it.1) =
        (items.map fun it => it.1).map pathOf := by
      rw [List.map_map]
      rfl
    rw [this]
    exact hnd.map fun a b h => pathOf_injective a b h
  obtain ⟨h1, -, -⟩ := writeIssues_ok_shape items [] [] fs1 c1 hrun
    (by simp) hpaths
  constructor
  · rw [h1]
    simp [entryOf, List.map_map, Function.comp]
  · rw [h1]
    simp

/-- C1 witness: the theorem applied to a concrete two-record catalog. -/
theorem writer_one_file_per_record_witness :
    ((writeIssues [] [] [("A", sampleIssue, "MED"), ("B", sampleIssue,
      "LOW")]).1.map Prod.fst =
        [".github/issues/A.md", ".github/issues/B.md"]) ∧
      (writeIssues [] [] [("A", sampleIssue, "MED"), ("B", sampleIssue,
        "LOW")]).1.length = 2 := by
  have h := writer_one_file_per_record
    [("A", sampleIssue, "MED"), ("B", sampleIssue, "LOW")]
    (writeIssues [] [] [("A", sampleIssue, "MED"), ("B", sampleIssue,
      "LOW")]).1
    (writeIssues [] [] [("A", sampleIssue, "MED"), ("B", sampleIssue,
      "LOW")]).2.1
    (by decide) (by decide)
  exact ⟨by rw [h.1]; decide, by rw [h.2]; decide⟩

/-- C6: the writer is idempotent — a second run on the same catalog into the
directory left by a completed first run overwrites every file with the same
content and reports the same paths, leaving the filesystem unchanged. -/
theorem writer_idempotent (items : List WorkItem) (fs1 : FS)
    (c1 : List String)
    (hnd : (items.map fun it => it.1).Nodup)
    (h1 : writeIssues [] [] items = (fs1, c1, none)) :
    writeIssues fs1 [] items = (fs1, c1, none) := by
  have hpaths : (items.map fun it => pathOf it.1).Nodup := by
    have he : (items.map fun it => pathOf it.1) =
        (items.map fun it => it.1).map pathOf := by
      rw [List.map_map]
      rfl
    rw [he]
    exact hnd.map fun a b h => pathOf_injective a b h
  obtain ⟨hfs, hc, hok⟩ := writeIssues_ok_shape items [] [] fs1 c1 h1
    (by simp) hpaths
  have hkeys : (fs1.map Prod.fst).Nodup := by
    rw [hfs]
    simpa [entryOf, List.map_map, Function.comp] using hpaths
  have hin : ∀ it ∈ items, entryOf it ∈ fs1 := by
    intro it hit
    rw [hfs]
    simpa using List.mem_map.mpr ⟨it, hit, rfl⟩
  rw [writeIssues_rewrite_noop items fs1 [] hkeys hin hok]
  rw [hc]

/-- C6 witness: the idempotence theorem applied to a concrete two-record
catalog and the directory its first run produced. -/
theorem writer_idempotent_witness :
    writeIssues (writeIssues [] [] [("A", sampleIssue, "MED"),
        ("B", sampleIssue, "LOW")]).1 []
      [("A", sampleIssue, "MED"), ("B", sampleIssue, "LOW")] =
      ((writeIssues [] [] [("A", sampleIssue, "MED"),
        ("B", sampleIssue, "LOW")]).1,
       (writeIssues [] [] [("A", sampleIssue, "MED"),
        ("B", sampleIssue, "LOW")]).2.1, none) :=
  writer_idempotent [("A", sampleIssue, "MED"), ("B", sampleIssue, "LOW")]
    _ _ (by decide) (by decide)

/-- C8: the batch is not atomic — when the k-th record fails, the files of
the k-1 completed records stay on disk with their full rendered contents
(no rollback) and no later record writes anything. -/
theorem writer_partial_failure_keeps_files (pre post : List WorkItem)
    (bad : WorkItem) (fs1 : FS) (c1 : List String) (err : PyError)
    (hnd : (pre.map fun it => pathOf it.1).Nodup)
    (h1 : writeIssues [] [] pre = (fs1, c1, none))
    (h2 : create_issue_file fs1 bad.1 bad.2.1 bad.2.2 = Except.error err) :
    writeIssues [] [] (pre ++ bad :: post) = (fs1, c1, some err) ∧
      fs1 = pre.map entryOf := by
  obtain ⟨hfs, -, -⟩ := writeIssues_ok_shape pre [] [] fs1 c1 h1
    (by simp) hnd
  refine ⟨?_, by simpa using hfs⟩
  rw [writeIssues_append pre (bad :: post) [] [] fs1 c1 h1]
  obtain ⟨issue_id, d, p⟩ := bad
  simp only [writeIssues]
  rw [h2]

/-- C8 witness: one good record, then a record with an unknown priority; the
good record's file survives and nothing after is written. -/
theorem writer_partial_failure_keeps_files_witness :
    writeIssues [] [] [("A", sampleIssue, "MED"), ("B", sampleIssue, "HIGH"),
        ("C", sampleIssue, "LOW")] =
      ([(".github/issues/A.md", renderOut sampleIssue "MED")],
        [".github/issues/A.md"], some (PyError.keyError "HIGH")) := by
  have h := writer_partial_failure_keeps_files
    [("A", sampleIssue, "MED")] [("C", sampleIssue, "LOW")]
    ("B", sampleIssue, "HIGH")
    (writeIssues [] [] [("A", sampleIssue, "MED")]).1
    (writeIssues [] [] [("A", sampleIssue, "MED")]).2.1
    (PyError.keyError "HIGH") (by decide) (by decide) (by decide)
  have h2 := h.1
  rw [h.2] at h2
  simpa [entryOf, pathOf] using h2

/-! Lines of the template other than a section header never equal one. -/

theorem title_line_ne_header (t : String) (hd : List Char)
    (hhd : hd ∈ [SummaryH, ImplementationH, CriteriaH, EffortH]) :
    ('#' :: ' ' :: t.data) ≠ hd := by
  fin_cases hhd <;>
    simp [SummaryH, ImplementationH, CriteriaH, EffortH]

theorem prio_line_ne_header (em nm : String) (hd : List Char)
    (hhd : hd ∈ [SummaryH, ImplementationH, CriteriaH, EffortH]) :
    ('#' :: '#' :: ' ' :: (em.data ++ ' ' :: (nm.data ++
      [' ', 'P', 'r', 'i', 'o', 'r', 'i', 't', 'y']))) ≠ hd := by
  fin_cases hhd <;>
    simp [SummaryH, ImplementationH, CriteriaH, EffortH]

theorem nil_ne_header (hd : List Char)
    (hhd : hd ∈ [SummaryH, ImplementationH, CriteriaH, EffortH]) :
    ([] : List Char) ≠ hd := by
  fin_cases hhd <;>
    simp [SummaryH, ImplementationH, CriteriaH, EffortH]

/-- C2 (amended): for a record whose title contains no newline and whose
four text fields contain no line equal to a section header line, the
rendered document consists, in order, of the title heading, a blank line,
the priority label line, a blank line, and the four sections in template
order, each populated verbatim with the lines of its field; and each of the
four section header lines occurs exactly once in the document. -/
theorem render_sections_in_order_once
    (d : IssueData) (p t em nm s i cr e c : String)
    (h1 : getKey d "title" = Except.ok t)
    (h2 : getKey priority_emoji p = Except.ok em)
    (h3 : getKey priority_name p = Except.ok nm)
    (h4 : getKey d "summary" = Except.ok s)
    (h5 : getKey d "implementation" = Except.ok i)
    (h6 : getKey d "criteria" = Except.ok cr)
    (h7 : getKey d "effort" = Except.ok e)
    (hc : renderContent d p = Except.ok c)
    (ht : '\n' ∉ t.data)
    (hfree : ∀ hd ∈ [SummaryH, ImplementationH, CriteriaH, EffortH],
      ∀ f ∈ [s, i, cr, e], hd ∉ splitLines f.data) :
    splitLines c.data =
      ("# ".data ++ t.data) :: [] ::
        ("## ".data ++ (em.data ++ ' ' :: (nm.data ++ " Priority".data))) ::
        [] :: SummaryH :: (splitLines s.data ++ [] :: ImplementationH ::
          (splitLines i.data ++ [] :: CriteriaH ::
            (splitLines cr.data ++ [] :: EffortH ::
              (splitLines e.data ++ [[]]))))
    ∧ (splitLines c.data).count SummaryH = 1
    ∧ (splitLines c.data).count ImplementationH = 1
    ∧ (splitLines c.data).count CriteriaH = 1
    ∧ (splitLines c.data).count EffortH = 1 := by
  have hem : '\n' ∉ em.data := by
    rcases priority_emoji_cases p em h2 with ⟨-, h⟩ | ⟨-, h⟩ <;> subst h <;>
      decide
  have hnm : '\n' ∉ nm.data := by
    rcases priority_name_cases p nm h3 with ⟨-, h⟩ | ⟨-, h⟩ <;> subst h <;>
      decide
  have hsplit := splitLines_renderContent d p t em nm s i cr e c
    h1 h2 h3 h4 h5 h6 h7 hc ht hem hnm
  refine ⟨hsplit, ?_, ?_, ?_, ?_⟩
  · rw [hsplit]
    simp [List.count_cons, List.count_append, List.count_nil, beq_iff_eq,
      title_line_ne_header t SummaryH (by simp),
      prio_line_ne_header em nm SummaryH (by simp),
      nil_ne_header SummaryH (by simp), (nil_ne_header SummaryH (by simp)).symm,
      (by decide : SummaryH ≠ ImplementationH), (by decide : SummaryH ≠ CriteriaH), (by decide : SummaryH ≠ EffortH),
      List.count_eq_zero.mpr (hfree SummaryH (by simp) s (by simp)), List.count_eq_zero.mpr (hfree SummaryH (by simp) i (by simp)), List.count_eq_zero.mpr (hfree SummaryH (by simp) cr (by simp)), List.count_eq_zero.mpr (hfree SummaryH (by simp) e (by simp))]
  · rw [hsplit]
    simp [List.count_cons, List.count_append, List.count_nil, beq_iff_eq,
      title_line_ne_header t ImplementationH (by simp),
      prio_line_ne_header em nm ImplementationH (by simp),
      nil_ne_header ImplementationH (by simp), (nil_ne_header ImplementationH (by simp)).symm,
      (by decide : ImplementationH ≠ SummaryH), (by decide : ImplementationH ≠ CriteriaH), (by decide : ImplementationH ≠ EffortH),
      List.count_eq_zero.mpr (hfree ImplementationH (by simp) s (by simp)), List.count_eq_zero.mpr (hfree ImplementationH (by simp) i (by simp)), List.count_eq_zero.mpr (hfree ImplementationH (by simp) cr (by simp)), List.count_eq_zero.mpr (hfree ImplementationH (by simp) e (by simp))]
  · rw [hsplit]
    simp [List.count_cons, List.count_append, List.count_nil, beq_iff_eq,
      title_line_ne_header t CriteriaH (by simp),
      prio_line_ne_header em nm CriteriaH (by simp),
      nil_ne_header CriteriaH (by simp), (nil_ne_header CriteriaH (by simp)).symm,
      (by decide : CriteriaH ≠ SummaryH), (by decide : CriteriaH ≠ ImplementationH), (by decide : CriteriaH ≠ EffortH),
      List.count_eq_zero.mpr (hfree CriteriaH (by simp) s (by simp)), List.count_eq_zero.mpr (hfree CriteriaH (by simp) i (by simp)), List.count_eq_zero.mpr (hfree CriteriaH (by simp) cr (by simp)), List.count_eq_zero.mpr (hfree CriteriaH (by simp) e (by simp))]
  · rw [hsplit]
    simp [List.count_cons, List.count_append, List.count_nil, beq_iff_eq,
      title_line_ne_header t EffortH (by simp),
      prio_line_ne_header em nm EffortH (by simp),
      nil_ne_header EffortH (by simp), (nil_ne_header EffortH (by simp)).symm,
      (by decide : EffortH ≠ SummaryH), (by decide : EffortH ≠ ImplementationH), (by decide : EffortH ≠ CriteriaH),
      List.count_eq_zero.mpr (hfree EffortH (by simp) s (by simp)), List.count_eq_zero.mpr (hfree EffortH (by simp) i (by simp)), List.count_eq_zero.mpr (hfree EffortH (by simp) cr (by simp)), List.count_eq_zero.mpr (hfree EffortH (by simp) e (by simp))]

/-- C2 witness: the sections theorem applied to a concrete record; its
conclusion projects to the four exactly-once counts. -/
theorem render_sections_in_order_once_witness :
    (splitLines (renderOut sampleIssue "MED").data).count SummaryH = 1
    ∧ (splitLines (renderOut sampleIssue "MED").data).count ImplementationH = 1
    ∧ (splitLines (renderOut sampleIssue "MED").data).count CriteriaH = 1
    ∧ (splitLines (renderOut sampleIssue "MED").data).count EffortH = 1 := by
  have h := render_sections_in_order_once sampleIssue "MED" "T" "🟡" "Medium"
    "S" "I" "C" "E" (renderOut sampleIssue "MED")
    (by decide) (by decide) (by decide) (by decide) (by decide) (by decide)
    (by decide) (by decide) (by decide) (by decide)
  exact ⟨h.2.1, h.2.2.1, h.2.2.2.1, h.2.2.2.2⟩

/-- C2 counterexample: a record whose summary field is itself the line
`### Implementation` renders to a document containing that header line
twice, so the as-stated claim fails for this record. -/
theorem render_sections_duplicate_header_cex :
    (renderContent [("title", "T"), ("summary", "### Implementation"),
      ("implementation", "I"), ("criteria", "C"), ("effort", "E")]
        "MED").isOk = true
    ∧ (splitLines (renderOut [("title", "T"),
        ("summary", "### Implementation"), ("implementation", "I"),
        ("criteria", "C"), ("effort", "E")] "MED").data).count
          ImplementationH = 2 := by
  refine ⟨by decide, by decide⟩

/-! Scanning a line list for a header line. -/

theorem dropThroughLine_cons_ne (h l : List Char) (ls : List (List Char))
    (hne : l ≠ h) : dropThroughLine h (l :: ls) = dropThroughLine h ls := by
  simp [dropThroughLine, hne]

theorem dropThroughLine_cons_self (h : List Char) (ls : List (List Char)) :
    dropThroughLine h (h :: ls) = ls := by
  simp [dropThroughLine]

theorem dropThroughLine_append_not_mem (h : List Char) (A B : List (List Char))
    (hA : h ∉ A) : dropThroughLine h (A ++ B) = dropThroughLine h B := by
  induction A with
  | nil => simp
  | cons a A ih =>
    have ha : a ≠ h := (List.ne_of_not_mem_cons hA).symm
    have hA2 : h ∉ A := List.not_mem_of_not_mem_cons hA
    rw [List.cons_append, dropThroughLine_cons_ne h a _ ha, ih hA2]

theorem takeBeforeLine_cons_ne (h l : List Char) (ls : List (List Char))
    (hne : l ≠ h) : takeBeforeLine h (l :: ls) = l :: takeBeforeLine h ls := by
  simp [takeBeforeLine, hne]

theorem takeBeforeLine_cons_self (h : List Char) (ls : List (List Char)) :
    takeBeforeLine h (h :: ls) = [] := by
  simp [takeBeforeLine]

theorem takeBeforeLine_append_not_mem (h : List Char) (A B : List (List Char))
    (hA : h ∉ A) : takeBeforeLine h (A ++ B) = A ++ takeBeforeLine h B := by
  induction A with
  | nil => simp
  | cons a A ih =>
    have ha : a ≠ h := (List.ne_of_not_mem_cons hA).symm
    have hA2 : h ∉ A := List.not_mem_of_not_mem_cons hA
    rw [List.cons_append, takeBeforeLine_cons_ne h a _ ha, ih hA2,
      List.cons_append]

/-- C3 (amended): for a record whose title contains no newline and whose
four text fields contain no line equal to a section header line, parsing the
section headers back out of the rendered document recovers the four text
fields verbatim. -/
theorem render_parse_roundtrip
    (d : IssueData) (p t em nm s i cr e c : String)
    (h1 : getKey d "title" = Except.ok t)
    (h2 : getKey priority_emoji p = Except.ok em)
    (h3 : getKey priority_name p = Except.ok nm)
    (h4 : getKey d "summary" = Except.ok s)
    (h5 : getKey d "implementation" = Except.ok i)
    (h6 : getKey d "criteria" = Except.ok cr)
    (h7 : getKey d "effort" = Except.ok e)
    (hc : renderContent d p = Except.ok c)
    (ht : '\n' ∉ t.data)
    (hfree : ∀ hd ∈ [SummaryH, ImplementationH, CriteriaH, EffortH],
      ∀ f ∈ [s, i, cr, e], hd ∉ splitLines f.data) :
    parseSections c.data = (s.data, i.data, cr.data, e.data) := by
  have hem : '\n' ∉ em.data := by
    rcases priority_emoji_cases p em h2 with ⟨-, h⟩ | ⟨-, h⟩ <;> subst h <;>
      decide
  have hnm : '\n' ∉ nm.data := by
    rcases priority_name_cases p nm h3 with ⟨-, h⟩ | ⟨-, h⟩ <;> subst h <;>
      decide
  have hsplit := splitLines_renderContent d p t em nm s i cr e c
    h1 h2 h3 h4 h5 h6 h7 hc ht hem hnm
  have n0 : ∀ hd ∈ [SummaryH, ImplementationH, CriteriaH, EffortH],
      ("# ".data ++ t.data) ≠ hd := fun hd hh =>
    title_line_ne_header t hd hh
  have n2 : ∀ hd ∈ [SummaryH, ImplementationH, CriteriaH, EffortH],
      ("## ".data ++ (em.data ++ ' ' :: (nm.data ++ " Priority".data))) ≠ hd :=
    fun hd hh => prio_line_ne_header em nm hd hh
  have hsec1 : sectionBetween SummaryH ImplementationH c.data = s.data := by
    unfold sectionBetween
    rw [hsplit, dropThroughLine_cons_ne _ _ _ (n0 SummaryH (by simp)),
      dropThroughLine_cons_ne _ _ _ (nil_ne_header SummaryH (by simp)),
      dropThroughLine_cons_ne _ _ _ (n2 SummaryH (by simp)),
      dropThroughLine_cons_ne _ _ _ (nil_ne_header SummaryH (by simp)),
      dropThroughLine_cons_self,
      takeBeforeLine_append_not_mem _ _ _
        (hfree ImplementationH (by simp) s (by simp)),
      takeBeforeLine_cons_ne _ _ _ (nil_ne_header ImplementationH (by simp)),
      takeBeforeLine_cons_self, List.dropLast_concat, joinLines_splitLines]
  have hsec2 : sectionBetween ImplementationH CriteriaH c.data = i.data := by
    unfold sectionBetween
    rw [hsplit, dropThroughLine_cons_ne _ _ _ (n0 ImplementationH (by simp)),
      dropThroughLine_cons_ne _ _ _ (nil_ne_header ImplementationH (by simp)),
      dropThroughLine_cons_ne _ _ _ (n2 ImplementationH (by simp)),
      dropThroughLine_cons_ne _ _ _ (nil_ne_header ImplementationH (by simp)),
      dropThroughLine_cons_ne _ _ _
        (by decide : SummaryH ≠ ImplementationH),
      dropThroughLine_append_not_mem _ _ _
        (hfree ImplementationH (by simp) s (by simp)),
      dropThroughLine_cons_ne _ _ _ (nil_ne_header ImplementationH (by simp)),
      dropThroughLine_cons_self,
      takeBeforeLine_append_not_mem _ _ _
        (hfree CriteriaH (by simp) i (by simp)),
      takeBeforeLine_cons_ne _ _ _ (nil_ne_header CriteriaH (by simp)),
      takeBeforeLine_cons_self, List.dropLast_concat, joinLines_splitLines]
  have hsec3 : sectionBetween CriteriaH EffortH c.data = cr.data := by
    unfold sectionBetween
    rw [hsplit, dropThroughLine_cons_ne _ _ _ (n0 CriteriaH (by simp)),
      dropThroughLine_cons_ne _ _ _ (nil_ne_header CriteriaH (by simp)),
      dropThroughLine_cons_ne _ _ _ (n2 CriteriaH (by simp)),
      dropThroughLine_cons_ne _ _ _ (nil_ne_header CriteriaH (by simp)),
      dropThroughLine_cons_ne _ _ _ (by decide : SummaryH ≠ CriteriaH),
      dropThroughLine_append_not_mem _ _ _
        (hfree CriteriaH (by simp) s (by simp)),
      dropThroughLine_cons_ne _ _ _ (nil_ne_header CriteriaH (by simp)),
      dropThroughLine_cons_ne _ _ _
        (by decide : ImplementationH ≠ CriteriaH),
      dropThroughLine_append_not_mem _ _ _
        (hfree CriteriaH (by simp) i (by simp)),
      dropThroughLine_cons_ne _ _ _ (nil_ne_header CriteriaH (by simp)),
      dropThroughLine_cons_self,
      takeBeforeLine_append_not_mem _ _ _
        (hfree EffortH (by simp) cr (by simp)),
      takeBeforeLine_cons_ne _ _ _ (nil_ne_header EffortH (by simp)),
      takeBeforeLine_cons_self, List.dropLast_concat, joinLines_splitLines]
  have hsec4 : sectionAfter EffortH c.data = e.data := by
    unfold sectionAfter
    rw [hsplit, dropThroughLine_cons_ne _ _ _ (n0 EffortH (by simp)),
      dropThroughLine_cons_ne _ _ _ (nil_ne_header EffortH (by simp)),
      dropThroughLine_cons_ne _ _ _ (n2 EffortH (by simp)),
      dropThroughLine_cons_ne _ _ _ (nil_ne_header EffortH (by simp)),
      dropThroughLine_cons_ne _ _ _ (by decide : SummaryH ≠ EffortH),
      dropThroughLine_append_not_mem _ _ _
        (hfree EffortH (by simp) s (by simp)),
      dropThroughLine_cons_ne _ _ _ (nil_ne_header EffortH (by simp)),
      dropThroughLine_cons_ne _ _ _
        (by decide : ImplementationH ≠ EffortH),
      dropThroughLine_append_not_mem _ _ _
        (hfree EffortH (by simp) i (by simp)),
      dropThroughLine_cons_ne _ _ _ (nil_ne_header EffortH (by simp)),
      dropThroughLine_cons_ne _ _ _ (by decide : CriteriaH ≠ EffortH),
      dropThroughLine_append_not_mem _ _ _
        (hfree EffortH (by simp) cr (by simp)),
      dropThroughLine_cons_ne _ _ _ (nil_ne_header EffortH (by simp)),
      dropThroughLine_cons_self, List.dropLast_concat, joinLines_splitLines]
  simp only [parseSections, hsec1, hsec2, hsec3, hsec4]

/-- C3 witness: the round-trip theorem applied to a concrete record. -/
theorem render_parse_roundtrip_witness :
    parseSections (renderOut sampleIssue "MED").data =
      ("S".data, "I".data, "C".data, "E".data) :=
  render_parse_roundtrip sampleIssue "MED" "T" "🟡" "Medium" "S" "I" "C" "E"
    (renderOut sampleIssue "MED") (by decide) (by decide) (by decide)
    (by decide) (by decide) (by decide) (by decide) (by decide) (by decide)
    (by decide)

/-- C3 counterexample: two records that differ in their summary field render
to the very same document, so no parser whatsoever can recover the original
field values of both — the as-stated claim fails. -/
theorem render_not_injective_cex :
    renderContent [("title", "T"), ("summary", "x\n\n### Implementation\ny"),
        ("implementation", "z"), ("criteria", "C"), ("effort", "E")] "MED" =
      renderContent [("title", "T"), ("summary", "x"),
        ("implementation", "y\n\n### Implementation\nz"), ("criteria", "C"),
        ("effort", "E")] "MED"
    ∧ List.lookup "summary" [("title", "T"),
        ("summary", "x\n\n### Implementation\ny"), ("implementation", "z"),
        ("criteria", "C"), ("effort", "E")] ≠
      List.lookup "summary" [("title", "T"), ("summary", "x"),
        ("implementation", "y\n\n### Implementation\nz"), ("criteria", "C"),
        ("effort", "E")] := by
  refine ⟨by decide, by decide⟩

/-- C7: `main` prints the count of files created followed by the written
paths, one per line, in catalog order — all twenty `MEDIUM_ISSUES` entries
in their catalog order, then all twelve `LOW_ISSUES` entries in theirs; the
reported sequence is exactly the iteration order of the catalogs. -/
theorem main_report_order :
    mainStdout = ["✅ Created 32 issue files:",
      "  - .github/issues/MED-001.md",
      "  - .github/issues/MED-002.md",
      "  - .github/issues/MED-003.md",
      "  - .github/issues/MED-004.md",
      "  - .github/issues/MED-005.md",
      "  - .github/issues/MED-006.md",
      "  - .github/issues/MED-007.md",
      "  - .github/issues/MED-008.md",
      "  - .github/issues/MED-009.md",
      "  - .github/issues/MED-010.md",
      "  - .github/issues/MED-011.md",
      "  - .github/issues/MED-012.md",
      "  - .github/issues/MED-013.md",
      "  - .github/issues/MED-014.md",
      "  - .github/issues/MED-015.md",
      "  - .github/issues/MED-016.md",
      "  - .github/issues/MED-017.md",
      "  - .github/issues/MED-018.md",
      "  - .github/issues/MED-019.md",
      "  - .github/issues/MED-020.md",
      "  - .github/issues/LOW-001.md",
      "  - .github/issues/LOW-002.md",
      "  - .github/issues/LOW-003.md",
      "  - .github/issues/LOW-004.md",
      "  - .github/issues/LOW-005.md",
      "  - .github/issues/LOW-006.md",
      "  - .github/issues/LOW-007.md",
      "  - .github/issues/LOW-008.md",
      "  - .github/issues/LOW-009.md",
      "  - .github/issues/LOW-010.md",
      "  - .github/issues/LOW-011.md",
      "  - .github/issues/LOW-012.md"]
    ∧ mainRun.2.1 = (mainItems.map fun it => pathOf it.1) := by
  exact ⟨rfl, rfl⟩

/-- C10: every record of the two shipped catalogs has all five template
fields, both priority tables contain both keys the writer passes, and hence
the full shipped run performs no failing lookup: it ends with no uncaught
error. -/
theorem shipped_catalogs_complete :
    ((MEDIUM_ISSUES ++ LOW_ISSUES).all fun entry =>
      ["title", "summary", "implementation", "criteria", "effort"].all
        fun k => (entry.2.lookup k).isSome) = true
    ∧ (priority_emoji.lookup "MED").isSome = true
    ∧ (priority_name.lookup "MED").isSome = true
    ∧ (priority_emoji.lookup "LOW").isSome = true
    ∧ (priority_name.lookup "LOW").isSome = true
    ∧ mainRun.2.2 = none := by
  exact ⟨rfl, rfl, rfl, rfl, rfl, rfl⟩
